import Mathlib

/-!
Verification of the University Database registry (julian-carbajal/ETL_DatabaseProject).

The repository snapshot contains the presentation layer (`src/main.cpp`) but not
`DBsystem.h`, the header that implements the registry (`DBsystem`, `Student`,
`Faculty`).  The registry operations below are therefore modelled from the
specification (spec.md §3 Data Model and §4.1 Registry); the presentation-layer
functions are embedded directly from `src/main.cpp`.

Conventions of the embedding:
- C++ `int` identifiers are modelled as `Int` (no arithmetic is performed on
  them, only equality tests, so overflow is irrelevant).
- The C++ `double` GPA is modelled as `Rat`: the registry only stores and
  returns the value, never computes with it, so any type with decidable
  equality is a faithful stand-in.
- `std::vector` sequences are modelled as `List`.
- The nullable `Student*` / `Faculty*` results of find are modelled as
  `Option`; a raw-pointer dereference `s->field` is modelled as an operation
  on the `Option` that fails (`Except.error`) on the null pointer.
-/

/-- Modelled from the spec: spec.md §3 — a Student record with caller-supplied
integer `id`, free-text `name`, `level`, `major`, a stored GPA, and an
unvalidated `advisorId` reference (`DBsystem.h` is not in the snapshot). -/
structure Student where
  id : Int
  name : String
  level : String
  major : String
  gpa : Rat
  advisorId : Int
deriving DecidableEq, Repr

/-- Modelled from the spec: spec.md §3 — a Faculty record with integer `id`,
free-text `name`, `level` and `department` (`DBsystem.h` is not in the
snapshot). -/
structure Faculty where
  id : Int
  name : String
  level : String
  department : String
deriving DecidableEq, Repr

/-- Modelled from the spec: spec.md §4.1 — the registry state is an ordered
sequence of Student records and an ordered sequence of Faculty records,
insertion order preserved (`DBsystem.h` is not in the snapshot). -/
structure DBsystem where
  students : List Student
  faculty : List Faculty
deriving DecidableEq, Repr

/-- Modelled from the spec: a freshly constructed registry (`DBsystem()` in
`src/main.cpp` line 234/291) holds two empty sequences. -/
def DBsystem.empty : DBsystem := ⟨[], []⟩

/-- Modelled from the spec: `addStudent(record)` appends the given Student to
the student sequence; no uniqueness check, always succeeds (spec.md §4.1). -/
def DBsystem.addStudent (db : DBsystem) (s : Student) : DBsystem :=
  { db with students := db.students ++ [s] }

/-- Modelled from the spec: `addFaculty(record)` appends the given Faculty to
the faculty sequence; no uniqueness check, always succeeds (spec.md §4.1). -/
def DBsystem.addFaculty (db : DBsystem) (f : Faculty) : DBsystem :=
  { db with faculty := db.faculty ++ [f] }

/-- Modelled from the spec: `findStudent(id)` scans the student sequence in
insertion order and returns the first record whose `id` equals the argument,
or an absence signal (`none`, the null pointer) if none match (spec.md §4.1). -/
def DBsystem.findStudent (db : DBsystem) (k : Int) : Option Student :=
  db.students.find? (fun s => s.id == k)

/-- Modelled from the spec: `findFaculty(id)`, symmetric to `findStudent`
(spec.md §4.1). -/
def DBsystem.findFaculty (db : DBsystem) (k : Int) : Option Faculty :=
  db.faculty.find? (fun f => f.id == k)

/-- Removes the first element satisfying `p` from the list, preserving the
relative order of the remaining elements; the Bool reports whether an element
was removed.  Shared helper for the two delete operations. -/
def removeFirst (p : α → Bool) : List α → List α × Bool
  | [] => ([], false)
  | a :: l =>
    if p a then (l, true)
    else
      let r := removeFirst p l
      (a :: r.1, r.2)

/-- Modelled from the spec: `deleteStudent(id)` removes the first record
matching `id` from the student sequence, preserving relative order of the
remaining elements; fails silently (no-op, `false`) if no match
(spec.md §4.1). -/
def DBsystem.deleteStudent (db : DBsystem) (k : Int) : DBsystem × Bool :=
  let r := removeFirst (fun s => s.id == k) db.students
  ({ db with students := r.1 }, r.2)

/-- Modelled from the spec: `deleteFaculty(id)`, symmetric to `deleteStudent`
(spec.md §4.1). -/
def DBsystem.deleteFaculty (db : DBsystem) (k : Int) : DBsystem × Bool :=
  let r := removeFirst (fun f => f.id == k) db.faculty
  ({ db with faculty := r.1 }, r.2)

/-- Modelled from the spec: `listStudents()` produces all student records in
insertion order, reflecting the registry state at call time (spec.md §4.1). -/
def DBsystem.listStudents (db : DBsystem) : List Student :=
  db.students

/-- Modelled from the spec: `listFaculty()`, symmetric (spec.md §4.1). -/
def DBsystem.listFaculty (db : DBsystem) : List Faculty :=
  db.faculty

/-- Modelled from the spec: `studentCount()` is the current length of the
student sequence (spec.md §4.1). -/
def DBsystem.studentCount (db : DBsystem) : Nat :=
  db.students.length

/-- Modelled from the spec: `facultyCount()` is the current length of the
faculty sequence (spec.md §4.1). -/
def DBsystem.facultyCount (db : DBsystem) : Nat :=
  db.faculty.length

/-- Modelled from the spec: `reset()` clears both sequences to empty,
equivalent to re-creating a fresh registry; `src/main.cpp` line 291 realises
it as `db = DBsystem()` (spec.md §4.1). -/
def DBsystem.reset (_db : DBsystem) : DBsystem :=
  DBsystem.empty

/-- One registry operation, as reachable from the menu loop: add, delete or
reset on either collection. -/
inductive Op
  | addS (s : Student)
  | addF (f : Faculty)
  | delS (k : Int)
  | delF (k : Int)
  | reset
deriving DecidableEq, Repr

/-- Applies one operation to the registry state. -/
def applyOp (db : DBsystem) : Op → DBsystem
  | .addS s => db.addStudent s
  | .addF f => db.addFaculty f
  | .delS k => (db.deleteStudent k).1
  | .delF k => (db.deleteFaculty k).1
  | .reset => db.reset

/-- Runs a sequence of operations from a starting state. -/
def runOps (db : DBsystem) (ops : List Op) : DBsystem :=
  ops.foldl applyOp db

/-! ### Generic lemmas about `List.find?` and `removeFirst` -/

theorem find_eq_some_iff_split {α : Type} (p : α → Bool) (l : List α) (a : α) :
    l.find? p = some a ↔
      ∃ pre post, l = pre ++ a :: post ∧ p a = true ∧ ∀ x ∈ pre, p x = false := by
  induction l with
  | nil => simp [List.find?]
  | cons b l ih =>
    by_cases hb : p b = true
    · rw [List.find?_cons_of_pos _ hb]
      constructor
      · intro h
        have hba : b = a := by injection h
        subst hba
        exact ⟨[], l, rfl, hb, by simp⟩
      · rintro ⟨pre, post, heq, hpa, hpre⟩
        cases pre with
        | nil =>
          simp only [List.nil_append, List.cons.injEq] at heq
          rw [heq.1]
        | cons c pre =>
          exfalso
          simp only [List.cons_append, List.cons.injEq] at heq
          have hc : p c = false := hpre c (by simp)
          rw [heq.1, hc] at hb
          exact Bool.noConfusion hb
    · have hb' : p b = false := by
        cases hpb : p b with
        | false => rfl
        | true => exact absurd hpb hb
      rw [List.find?_cons_of_neg _ hb, ih]
      constructor
      · rintro ⟨pre, post, rfl, hpa, hpre⟩
        refine ⟨b :: pre, post, rfl, hpa, ?_⟩
        intro x hx
        rcases List.mem_cons.mp hx with rfl | hx
        · exact hb'
        · exact hpre x hx
      · rintro ⟨pre, post, heq, hpa, hpre⟩
        cases pre with
        | nil =>
          exfalso
          simp only [List.nil_append, List.cons.injEq] at heq
          rw [heq.1, hpa] at hb'
          exact Bool.noConfusion hb'
        | cons c pre =>
          simp only [List.cons_append, List.cons.injEq] at heq
          exact ⟨pre, post, heq.2, hpa, fun x hx => hpre x (by simp [hx])⟩

theorem removeFirst_cons_pos {α : Type} (p : α → Bool) (b : α) (l : List α)
    (hb : p b = true) : removeFirst p (b :: l) = (l, true) := by
  simp [removeFirst, hb]

theorem removeFirst_cons_neg {α : Type} (p : α → Bool) (b : α) (l : List α)
    (hb : p b = false) :
    removeFirst p (b :: l) = (b :: (removeFirst p l).1, (removeFirst p l).2) := by
  simp [removeFirst, hb]

theorem removeFirst_of_none {α : Type} (p : α → Bool) (l : List α)
    (h : ∀ x ∈ l, p x = false) : removeFirst p l = (l, false) := by
  induction l with
  | nil => rfl
  | cons a l ih =>
    have ha : p a = false := h a (by simp)
    have ih' := ih (fun x hx => h x (by simp [hx]))
    rw [removeFirst_cons_neg p a l ha, ih']

theorem removeFirst_append_hit {α : Type} (p : α → Bool) (l : List α) (a : α)
    (h : ∀ x ∈ l, p x = false) (ha : p a = true) :
    removeFirst p (l ++ [a]) = (l, true) := by
  induction l with
  | nil =>
    rw [List.nil_append, removeFirst_cons_pos p a [] ha]
  | cons b l ih =>
    have hb : p b = false := h b (by simp)
    have ih' := ih (fun x hx => h x (by simp [hx]))
    rw [List.cons_append, removeFirst_cons_neg p b _ hb, ih']

/-! ### Claim theorems -/

/-- Claim C1: for every registry state reachable by any sequence of add, delete
and reset operations, `studentCount()` equals the number of elements yielded by
`listStudents()`, and `facultyCount()` equals the number of elements yielded by
`listFaculty()`. -/
theorem count_consistency_reachable (ops : List Op) :
    (runOps DBsystem.empty ops).studentCount =
      ((runOps DBsystem.empty ops).listStudents).length ∧
    (runOps DBsystem.empty ops).facultyCount =
      ((runOps DBsystem.empty ops).listFaculty).length :=
  ⟨rfl, rfl⟩

/-- Claim C3: after `reset()` — realised by the presentation layer's
"Clear Database" action (`src/main.cpp` lines 286–294) as `db = DBsystem()` on
a 'y'/'Y' answer — both counts are 0 and both listings are empty, regardless of
the prior registry state. -/
theorem reset_clears_both (db : DBsystem) :
    (db.reset).studentCount = 0 ∧ (db.reset).facultyCount = 0 ∧
    (db.reset).listStudents = [] ∧ (db.reset).listFaculty = [] ∧
    db.reset = DBsystem.empty :=
  ⟨rfl, rfl, rfl, rfl, rfl⟩

/-- Claim C5: for every starting state and every sequence of `addStudent` calls
with no intervening deletes or resets, `listStudents()` yields the prior
contents followed by exactly the added records in the exact order they were
added; symmetrically for `addFaculty`/`listFaculty`. -/
theorem insertion_order_preserved (db : DBsystem)
    (ss : List Student) (fs : List Faculty) :
    (ss.foldl DBsystem.addStudent db).listStudents = db.listStudents ++ ss ∧
    (fs.foldl DBsystem.addFaculty db).listFaculty = db.listFaculty ++ fs := by
  constructor
  · induction ss generalizing db with
    | nil => simp [DBsystem.listStudents]
    | cons s ss ih =>
      simp only [List.foldl_cons]
      rw [ih]
      simp [DBsystem.addStudent, DBsystem.listStudents]
  · induction fs generalizing db with
    | nil => simp [DBsystem.listFaculty]
    | cons f fs ih =>
      simp only [List.foldl_cons]
      rw [ih]
      simp [DBsystem.addFaculty, DBsystem.listFaculty]

/-- Claim C4: `findStudent(k)` (and symmetrically `findFaculty(k)`) returns the
earliest-inserted record whose id equals `k`, or the absence signal if no
record matches, even when several records share the same id.  The lookup is a
pure function of the state (the shallow embedding returns no modified state),
so the registry is left unchanged. -/
theorem find_first_match (db : DBsystem) (k : Int) :
    (db.findStudent k = none ↔ ∀ s ∈ db.listStudents, s.id ≠ k) ∧
    (∀ s : Student, db.findStudent k = some s ↔
      s.id = k ∧ ∃ pre post, db.listStudents = pre ++ s :: post ∧
        ∀ x ∈ pre, x.id ≠ k) ∧
    (db.findFaculty k = none ↔ ∀ f ∈ db.listFaculty, f.id ≠ k) ∧
    (∀ f : Faculty, db.findFaculty k = some f ↔
      f.id = k ∧ ∃ pre post, db.listFaculty = pre ++ f :: post ∧
        ∀ x ∈ pre, x.id ≠ k) := by
  refine ⟨?_, ?_, ?_, ?_⟩
  · unfold DBsystem.findStudent DBsystem.listStudents
    rw [List.find?_eq_none]
    constructor
    · intro h s hs
      simpa using h s hs
    · intro h s hs
      simpa using h s hs
  · intro s
    unfold DBsystem.findStudent DBsystem.listStudents
    rw [find_eq_some_iff_split]
    constructor
    · rintro ⟨pre, post, heq, hpa, hpre⟩
      exact ⟨by simpa using hpa, pre, post, heq,
        fun x hx => by simpa using hpre x hx⟩
    · rintro ⟨hk, pre, post, heq, hpre⟩
      exact ⟨pre, post, heq, by simpa using hk,
        fun x hx => by simpa using hpre x hx⟩
  · unfold DBsystem.findFaculty DBsystem.listFaculty
    rw [List.find?_eq_none]
    constructor
    · intro h f hf
      simpa using h f hf
    · intro h f hf
      simpa using h f hf
  · intro f
    unfold DBsystem.findFaculty DBsystem.listFaculty
    rw [find_eq_some_iff_split]
    constructor
    · rintro ⟨pre, post, heq, hpa, hpre⟩
      exact ⟨by simpa using hpa, pre, post, heq,
        fun x hx => by simpa using hpre x hx⟩
    · rintro ⟨hk, pre, post, heq, hpre⟩
      exact ⟨pre, post, heq, by simpa using hk,
        fun x hx => by simpa using hpre x hx⟩

/-- Claim C2: from a registry state with no duplicate ids in which id `k` is
absent, `add` of a record with id `k` followed by `delete(k)` in the same
collection makes `find(k)` return absent, and leaves `count()` exactly 1 less
than it was immediately before the delete (for both collections). -/
theorem add_then_delete (db : DBsystem) (k : Int) (s : Student) (f : Faculty)
    (_hs_nodup : (db.students.map Student.id).Nodup)
    (_hf_nodup : (db.faculty.map Faculty.id).Nodup)
    (hs_fresh : db.findStudent k = none)
    (hf_fresh : db.findFaculty k = none)
    (hsid : s.id = k) (hfid : f.id = k) :
    ((db.addStudent s).deleteStudent k).1.findStudent k = none ∧
    ((db.addStudent s).deleteStudent k).1.studentCount + 1 =
      (db.addStudent s).studentCount ∧
    ((db.addFaculty f).deleteFaculty k).1.findFaculty k = none ∧
    ((db.addFaculty f).deleteFaculty k).1.facultyCount + 1 =
      (db.addFaculty f).facultyCount := by
  have hallS : ∀ x ∈ db.students, (x.id == k) = false := by
    intro x hx
    have hx' := List.find?_eq_none.mp hs_fresh x hx
    simpa using hx'
  have hallF : ∀ x ∈ db.faculty, (x.id == k) = false := by
    intro x hx
    have hx' := List.find?_eq_none.mp hf_fresh x hx
    simpa using hx'
  have hrS : removeFirst (fun x : Student => x.id == k)
      ((db.addStudent s).students) = (db.students, true) := by
    exact removeFirst_append_hit _ _ _ hallS (by simp [hsid])
  have hrF : removeFirst (fun x : Faculty => x.id == k)
      ((db.addFaculty f).faculty) = (db.faculty, true) := by
    exact removeFirst_append_hit _ _ _ hallF (by simp [hfid])
  have hstateS : ((db.addStudent s).deleteStudent k).1 = db := by
    unfold DBsystem.deleteStudent
    rw [hrS]
    rfl
  have hstateF : ((db.addFaculty f).deleteFaculty k).1 = db := by
    unfold DBsystem.deleteFaculty
    rw [hrF]
    rfl
  refine ⟨?_, ?_, ?_, ?_⟩
  · rw [hstateS]
    exact hs_fresh
  · rw [hstateS]
    simp [DBsystem.studentCount, DBsystem.addStudent]
  · rw [hstateF]
    exact hf_fresh
  · rw [hstateF]
    simp [DBsystem.facultyCount, DBsystem.addFaculty]

/-- Witness for C2 at a concrete registry holding one student and one faculty
record, adding and deleting id 5 in each collection. -/
theorem add_then_delete_witness :
    (((DBsystem.mk [⟨1, "Alice", "Senior", "CS", 4, 101⟩]
        [⟨101, "Dr. Smith", "Professor", "CS"⟩]).addStudent
          ⟨5, "Bob", "Junior", "Math", 3, 102⟩).deleteStudent 5).1.findStudent 5
            = none ∧
    (((DBsystem.mk [⟨1, "Alice", "Senior", "CS", 4, 101⟩]
        [⟨101, "Dr. Smith", "Professor", "CS"⟩]).addStudent
          ⟨5, "Bob", "Junior", "Math", 3, 102⟩).deleteStudent 5).1.studentCount
            + 1 =
      ((DBsystem.mk [⟨1, "Alice", "Senior", "CS", 4, 101⟩]
        [⟨101, "Dr. Smith", "Professor", "CS"⟩]).addStudent
          ⟨5, "Bob", "Junior", "Math", 3, 102⟩).studentCount ∧
    (((DBsystem.mk [⟨1, "Alice", "Senior", "CS", 4, 101⟩]
        [⟨101, "Dr. Smith", "Professor", "CS"⟩]).addFaculty
          ⟨5, "Dr. Jones", "Professor", "Math"⟩).deleteFaculty 5).1.findFaculty 5
            = none ∧
    (((DBsystem.mk [⟨1, "Alice", "Senior", "CS", 4, 101⟩]
        [⟨101, "Dr. Smith", "Professor", "CS"⟩]).addFaculty
          ⟨5, "Dr. Jones", "Professor", "Math"⟩).deleteFaculty 5).1.facultyCount
            + 1 =
      ((DBsystem.mk [⟨1, "Alice", "Senior", "CS", 4, 101⟩]
        [⟨101, "Dr. Smith", "Professor", "CS"⟩]).addFaculty
          ⟨5, "Dr. Jones", "Professor", "Math"⟩).facultyCount :=
  add_then_delete
    (DBsystem.mk [⟨1, "Alice", "Senior", "CS", 4, 101⟩]
      [⟨101, "Dr. Smith", "Professor", "CS"⟩]) 5
    ⟨5, "Bob", "Junior", "Math", 3, 102⟩
    ⟨5, "Dr. Jones", "Professor", "Math"⟩
    (by decide) (by decide) rfl rfl rfl rfl

/-- Claim C6: `addStudent` always succeeds for every input record and every
registry state — including a record whose `advisorId` matches no existing
faculty id — appending the record and increasing the student sequence length
by exactly 1, with no validation of any field; afterwards `findFaculty` on the
dangling `advisorId` still returns absent. -/
theorem addStudent_no_validation (db : DBsystem) (s : Student)
    (h : db.findFaculty s.advisorId = none) :
    (db.addStudent s).listStudents = db.listStudents ++ [s] ∧
    (db.addStudent s).studentCount = db.studentCount + 1 ∧
    (db.addStudent s).findFaculty s.advisorId = none := by
  refine ⟨rfl, ?_, h⟩
  simp [DBsystem.studentCount, DBsystem.addStudent]

/-- Witness for C6: adding a student whose advisor id 999 matches no faculty
record in the empty registry. -/
theorem addStudent_no_validation_witness :
    (DBsystem.empty.addStudent
        ⟨2, "Bob", "Junior", "Math", 3, 999⟩).listStudents =
      DBsystem.empty.listStudents ++ [⟨2, "Bob", "Junior", "Math", 3, 999⟩] ∧
    (DBsystem.empty.addStudent
        ⟨2, "Bob", "Junior", "Math", 3, 999⟩).studentCount =
      DBsystem.empty.studentCount + 1 ∧
    (DBsystem.empty.addStudent
        ⟨2, "Bob", "Junior", "Math", 3, 999⟩).findFaculty 999 = none :=
  addStudent_no_validation DBsystem.empty ⟨2, "Bob", "Junior", "Math", 3, 999⟩ rfl

/-- Claim C7: for every id `k` absent from the relevant collection —
absent from the students for `deleteStudent(k)`, absent from the faculty for
`deleteFaculty(k)`, with the other collection arbitrary — the delete is a
no-op: the whole registry state is returned unchanged (hence counts and all
records in both collections are unaffected) and the absence is signalled by
the `false` result, not a raised fault (both operations are total
functions). -/
theorem delete_absent_noop (db : DBsystem) (k : Int) :
    (db.findStudent k = none → db.deleteStudent k = (db, false)) ∧
    (db.findFaculty k = none → db.deleteFaculty k = (db, false)) := by
  constructor
  · intro hs
    have hallS : ∀ x ∈ db.students, (x.id == k) = false := by
      intro x hx
      have hx' := List.find?_eq_none.mp hs x hx
      simpa using hx'
    unfold DBsystem.deleteStudent
    rw [removeFirst_of_none _ _ hallS]
  · intro hf
    have hallF : ∀ x ∈ db.faculty, (x.id == k) = false := by
      intro x hx
      have hx' := List.find?_eq_none.mp hf x hx
      simpa using hx'
    unfold DBsystem.deleteFaculty
    rw [removeFirst_of_none _ _ hallF]

/-- Witness for C7 on a registry holding student id 1 and faculty id 101:
`deleteStudent(101)` is a no-op although faculty id 101 exists (absence from
the relevant collection alone suffices), and symmetrically `deleteFaculty(1)`
is a no-op although student id 1 exists. -/
theorem delete_absent_noop_witness :
    (DBsystem.mk [⟨1, "Alice", "Senior", "CS", 4, 101⟩]
        [⟨101, "Dr. Smith", "Professor", "CS"⟩]).deleteStudent 101 =
      (DBsystem.mk [⟨1, "Alice", "Senior", "CS", 4, 101⟩]
        [⟨101, "Dr. Smith", "Professor", "CS"⟩], false) ∧
    (DBsystem.mk [⟨1, "Alice", "Senior", "CS", 4, 101⟩]
        [⟨101, "Dr. Smith", "Professor", "CS"⟩]).deleteFaculty 1 =
      (DBsystem.mk [⟨1, "Alice", "Senior", "CS", 4, 101⟩]
        [⟨101, "Dr. Smith", "Professor", "CS"⟩], false) :=
  ⟨(delete_absent_noop
      (DBsystem.mk [⟨1, "Alice", "Senior", "CS", 4, 101⟩]
        [⟨101, "Dr. Smith", "Professor", "CS"⟩]) 101).1 rfl,
   (delete_absent_noop
      (DBsystem.mk [⟨1, "Alice", "Senior", "CS", 4, 101⟩]
        [⟨101, "Dr. Smith", "Professor", "CS"⟩]) 1).2 rfl⟩

/-! ### Presentation layer, embedded from `src/main.cpp`

The nullable `Student*` / `Faculty*` returned by find is an `Option`; `none`
is the null pointer, the sole absence signal.  A dereference `p->field` is
modelled by `derefStudent` / `derefFaculty`, which fails on the null pointer;
a handler therefore has type `Except Unit _`, and proving it always returns
`.ok` proves that no execution dereferences a null result. -/

/-- Dereference of a nullable `Student*`: fails on the null pointer. -/
def derefStudent : Option Student → Except Unit Student
  | some s => .ok s
  | none => .error ()

/-- Dereference of a nullable `Faculty*`: fails on the null pointer. -/
def derefFaculty : Option Faculty → Except Unit Faculty
  | some f => .ok f
  | none => .error ()

/-- What the find-student menu action displays. -/
inductive FindOutput
  | foundStudent (id : Int) (name level major : String) (gpa : Rat)
      (advisorId : Int)
  | studentNotFound (id : Int)
  | foundFaculty (id : Int) (name level department : String)
  | facultyNotFound (id : Int)
deriving DecidableEq, Repr

/-- Embedded from `src/main.cpp` lines 142–161 (`findStudentInteractive`):
calls `db.findStudent(id)`; if the pointer tests non-null, dereferences it to
print the record's fields, otherwise prints "not found". -/
def findStudentInteractive (db : DBsystem) (k : Int) : Except Unit FindOutput :=
  let s := db.findStudent k
  if s.isSome then
    (derefStudent s).map fun sv =>
      FindOutput.foundStudent sv.id sv.name sv.level sv.major sv.gpa sv.advisorId
  else
    .ok (FindOutput.studentNotFound k)

/-- Embedded from `src/main.cpp` lines 163–180 (`findFacultyInteractive`). -/
def findFacultyInteractive (db : DBsystem) (k : Int) : Except Unit FindOutput :=
  let f := db.findFaculty k
  if f.isSome then
    (derefFaculty f).map fun fv =>
      FindOutput.foundFaculty fv.id fv.name fv.level fv.department
  else
    .ok (FindOutput.facultyNotFound k)

/-- Message printed by a delete menu action. -/
inductive DeleteMsg
  | deleted
  | cancelled
  | notFound (id : Int)
deriving DecidableEq, Repr

/-- Result of one execution of a delete menu action: the registry state it
leaves behind, whether `db.deleteStudent`/`db.deleteFaculty` was invoked, and
the message printed. -/
structure DeleteRun where
  db : DBsystem
  invoked : Bool
  msg : DeleteMsg
deriving DecidableEq, Repr

/-- Embedded from `src/main.cpp` lines 182–201 (`deleteStudentInteractive`):
calls `db.findStudent(id)`; if non-null, dereferences the pointer to show the
name in the confirmation prompt and invokes `db.deleteStudent(id)` only when
the answer is 'y' or 'Y'; otherwise the registry is untouched. -/
def deleteStudentInteractive (db : DBsystem) (k : Int) (confirm : Char) :
    Except Unit DeleteRun :=
  let s := db.findStudent k
  if s.isSome then
    (derefStudent s).bind fun _sv =>
      if confirm = 'y' ∨ confirm = 'Y' then
        .ok ⟨(db.deleteStudent k).1, true, .deleted⟩
      else
        .ok ⟨db, false, .cancelled⟩
  else
    .ok ⟨db, false, .notFound k⟩

/-- Embedded from `src/main.cpp` lines 203–222 (`deleteFacultyInteractive`). -/
def deleteFacultyInteractive (db : DBsystem) (k : Int) (confirm : Char) :
    Except Unit DeleteRun :=
  let f := db.findFaculty k
  if f.isSome then
    (derefFaculty f).bind fun _fv =>
      if confirm = 'y' ∨ confirm = 'Y' then
        .ok ⟨(db.deleteFaculty k).1, true, .deleted⟩
      else
        .ok ⟨db, false, .cancelled⟩
  else
    .ok ⟨db, false, .notFound k⟩

theorem deleteStudentInteractive_eq (db : DBsystem) (k : Int) (c : Char) :
    deleteStudentInteractive db k c =
      if (db.findStudent k).isSome then
        (if c = 'y' ∨ c = 'Y' then
          Except.ok ⟨(db.deleteStudent k).1, true, .deleted⟩
         else Except.ok ⟨db, false, .cancelled⟩)
      else Except.ok ⟨db, false, DeleteMsg.notFound k⟩ := by
  unfold deleteStudentInteractive
  cases h : db.findStudent k with
  | none => simp [derefStudent]
  | some sv => simp [derefStudent, Except.bind]

theorem deleteFacultyInteractive_eq (db : DBsystem) (k : Int) (c : Char) :
    deleteFacultyInteractive db k c =
      if (db.findFaculty k).isSome then
        (if c = 'y' ∨ c = 'Y' then
          Except.ok ⟨(db.deleteFaculty k).1, true, .deleted⟩
         else Except.ok ⟨db, false, .cancelled⟩)
      else Except.ok ⟨db, false, DeleteMsg.notFound k⟩ := by
  unfold deleteFacultyInteractive
  cases h : db.findFaculty k with
  | none => simp [derefFaculty]
  | some fv => simp [derefFaculty, Except.bind]

/-- Claim C8: the delete menu actions invoke `db.deleteStudent(id)` /
`db.deleteFaculty(id)` only after the target record was found and the user
answered 'y' or 'Y' to the confirmation prompt; on any other answer, and when
the id is not found, the registry is not mutated. -/
theorem delete_requires_confirmation (db : DBsystem) (k : Int) (c : Char) :
    (∀ r, deleteStudentInteractive db k c = .ok r →
        ((r.invoked = true ↔
            (db.findStudent k).isSome = true ∧ (c = 'y' ∨ c = 'Y')) ∧
         (r.invoked = false → r.db = db) ∧
         (r.invoked = true → r.db = (db.deleteStudent k).1))) ∧
    (∀ r, deleteFacultyInteractive db k c = .ok r →
        ((r.invoked = true ↔
            (db.findFaculty k).isSome = true ∧ (c = 'y' ∨ c = 'Y')) ∧
         (r.invoked = false → r.db = db) ∧
         (r.invoked = true → r.db = (db.deleteFaculty k).1))) := by
  constructor
  · intro r hr
    rw [deleteStudentInteractive_eq] at hr
    split_ifs at hr with h1 h2
    · injection hr with hr
      subst hr
      refine ⟨by simp [h1, h2], by simp, fun _ => rfl⟩
    · injection hr with hr
      subst hr
      refine ⟨by simp [h2], fun _ => rfl, by simp⟩
    · injection hr with hr
      subst hr
      refine ⟨by simp [h1], fun _ => rfl, by simp⟩
  · intro r hr
    rw [deleteFacultyInteractive_eq] at hr
    split_ifs at hr with h1 h2
    · injection hr with hr
      subst hr
      refine ⟨by simp [h1, h2], by simp, fun _ => rfl⟩
    · injection hr with hr
      subst hr
      refine ⟨by simp [h2], fun _ => rfl, by simp⟩
    · injection hr with hr
      subst hr
      refine ⟨by simp [h1], fun _ => rfl, by simp⟩

/-- Witness for C8: on a registry holding student id 7 and faculty id 8, a
declined confirmation ('n') leaves the registry unchanged in both delete menu
actions. -/
theorem delete_requires_confirmation_witness :
    (DeleteRun.mk (DBsystem.mk [⟨7, "Ann", "Senior", "CS", 4, 8⟩]
        [⟨8, "Dr. P", "Professor", "CS"⟩]) false .cancelled).db =
      DBsystem.mk [⟨7, "Ann", "Senior", "CS", 4, 8⟩]
        [⟨8, "Dr. P", "Professor", "CS"⟩] ∧
    (DeleteRun.mk (DBsystem.mk [⟨7, "Ann", "Senior", "CS", 4, 8⟩]
        [⟨8, "Dr. P", "Professor", "CS"⟩]) false .cancelled).db =
      DBsystem.mk [⟨7, "Ann", "Senior", "CS", 4, 8⟩]
        [⟨8, "Dr. P", "Professor", "CS"⟩] :=
  ⟨((delete_requires_confirmation
      (DBsystem.mk [⟨7, "Ann", "Senior", "CS", 4, 8⟩]
        [⟨8, "Dr. P", "Professor", "CS"⟩]) 7 'n').1
      ⟨DBsystem.mk [⟨7, "Ann", "Senior", "CS", 4, 8⟩]
        [⟨8, "Dr. P", "Professor", "CS"⟩], false, .cancelled⟩ rfl).2.1 rfl,
   ((delete_requires_confirmation
      (DBsystem.mk [⟨7, "Ann", "Senior", "CS", 4, 8⟩]
        [⟨8, "Dr. P", "Professor", "CS"⟩]) 8 'n').2
      ⟨DBsystem.mk [⟨7, "Ann", "Senior", "CS", 4, 8⟩]
        [⟨8, "Dr. P", "Professor", "CS"⟩], false, .cancelled⟩ rfl).2.1 rfl⟩

/-- Claim C10: every execution of the find and delete menu actions returns
`.ok` — the handlers test the nullable find result before dereferencing it,
so no execution dereferences the null pointer (`none`), which is the sole
absence signal of `findStudent`/`findFaculty`. -/
theorem no_null_dereference (db : DBsystem) (k : Int) (c : Char) :
    (∃ o, findStudentInteractive db k = .ok o) ∧
    (∃ o, findFacultyInteractive db k = .ok o) ∧
    (∃ r, deleteStudentInteractive db k c = .ok r) ∧
    (∃ r, deleteFacultyInteractive db k c = .ok r) := by
  refine ⟨?_, ?_, ?_, ?_⟩
  · cases h : db.findStudent k with
    | none =>
      exact ⟨FindOutput.studentNotFound k, by simp [findStudentInteractive, h]⟩
    | some sv =>
      exact ⟨FindOutput.foundStudent sv.id sv.name sv.level sv.major sv.gpa
        sv.advisorId, by simp [findStudentInteractive, h, derefStudent, Except.map]⟩
  · cases h : db.findFaculty k with
    | none =>
      exact ⟨FindOutput.facultyNotFound k, by simp [findFacultyInteractive, h]⟩
    | some fv =>
      exact ⟨FindOutput.foundFaculty fv.id fv.name fv.level fv.department,
        by simp [findFacultyInteractive, h, derefFaculty, Except.map]⟩
  · rw [deleteStudentInteractive_eq]
    split_ifs
    · exact ⟨_, rfl⟩
    · exact ⟨_, rfl⟩
    · exact ⟨_, rfl⟩
  · rw [deleteFacultyInteractive_eq]
    split_ifs
    · exact ⟨_, rfl⟩
    · exact ⟨_, rfl⟩
    · exact ⟨_, rfl⟩

/-- Embedded from `src/main.cpp` lines 69–87 (`loadSampleData`): the sample
data seeded by menu option 11 — eight students and four faculty members. -/
def loadSampleData (db : DBsystem) : DBsystem :=
  ((((((((((((db.addStudent ⟨1, "Alice", "Senior", "Computer Science", 3.9, 101⟩
    ).addStudent ⟨2, "Bob", "Junior", "Mathematics", 3.5, 102⟩
    ).addStudent ⟨3, "Charlie", "Sophomore", "Computer Science", 3.8, 101⟩
    ).addStudent ⟨4, "David", "Freshman", "Mathematics", 3.2, 102⟩
    ).addStudent ⟨5, "Eve", "Senior", "Computer Science", 3.6, 101⟩
    ).addStudent ⟨6, "Frank", "Sophomore", "Mathematics", 3.4, 102⟩
    ).addStudent ⟨7, "Grace", "Freshman", "Computer Science", 3.7, 101⟩
    ).addStudent ⟨8, "Henry", "Junior", "Mathematics", 3.3, 102⟩
    ).addFaculty ⟨101, "Dr. Smith", "Professor", "Computer Science"⟩
    ).addFaculty ⟨102, "Dr. Johnson", "Associate Professor", "Mathematics"⟩
    ).addFaculty ⟨103, "Dr. Williams", "Assistant Professor", "Computer Science"⟩
    ).addFaculty ⟨104, "Dr. Brown", "Associate Professor", "Mathematics"⟩)

/-- Embedded from `src/main.cpp` lines 264–266: menu option 5
("Student Count") prints the fixed text `Total Students: (display all to
see)` and performs no registry call — the output does not depend on the
registry state. -/
def studentCountMenuOutput (_db : DBsystem) : String :=
  "Total Students: (display all to see)"

/-- Embedded from `src/main.cpp` lines 280–282: menu option 10
("Faculty Count") prints the fixed text `Total Faculty: (display all to
see)` and performs no registry call. -/
def facultyCountMenuOutput (_db : DBsystem) : String :=
  "Total Faculty: (display all to see)"

/-- Claim C9 (divergence): the registry counts of the sample-data state are 8
and 4 while the empty registry's are 0 and 0, yet the "Student Count" and
"Faculty Count" menu actions print the same fixed placeholder in both states
— the handlers never invoke `studentCount()`/`facultyCount()` and display no
count to the user. -/
theorem count_menu_placeholder :
    (loadSampleData DBsystem.empty).studentCount = 8 ∧
    (loadSampleData DBsystem.empty).facultyCount = 4 ∧
    DBsystem.empty.studentCount = 0 ∧
    DBsystem.empty.facultyCount = 0 ∧
    studentCountMenuOutput (loadSampleData DBsystem.empty) =
      studentCountMenuOutput DBsystem.empty ∧
    facultyCountMenuOutput (loadSampleData DBsystem.empty) =
      facultyCountMenuOutput DBsystem.empty :=
  ⟨rfl, rfl, rfl, rfl, rfl, rfl⟩
